import Mathlib

/-!
Verification of the workflow-orchestration core of the repository
(`app/core/ondemand_workflows.py` and `app/api/routes/workflows.py`).

The Python code is shallowly embedded: the remote AI backend (On-Demand.io)
is modelled as a `Collaborator` that fixes the outcome of the one
session-creation call and of each query call (indexed by the order in which
the queries are issued).  Each `execute_*` coroutine of
`OnDemandWorkflowManager` is a straight-line Lean function returning the
outcome (`Except String WorkflowResult`, an exception message or the result
dict) together with the ordered list of remote calls the execution issued.
Wall-clock values (`datetime.now().timestamp()` and
`datetime.now().isoformat()`) are passed in as explicit string parameters.
-/

/-- One remote operation issued against the On-Demand.io backend:
either the `POST /sessions` call made by `_create_session` (recording the
`externalUserId` field it sends), or the `POST /sessions/{id}/query` call
made by `_submit_query` (recording the session id, the resolved
`endpointId`, and the query text; the constant `pluginIds` and
`responseMode` fields of the request body are omitted). -/
inductive RemoteCall where
  | createSession (externalUserId : String)
  | query (sessionId : String) (endpointId : String) (queryText : String)
deriving DecidableEq

/-- The inner object of the response envelope, `envelope["data"]`. -/
structure QueryData where
  answer : Option String
deriving DecidableEq

/-- The JSON envelope returned by `_submit_query` (`response.json()`):
only the `data.answer` path is ever read by the workflow code. -/
structure QueryResponse where
  data : Option QueryData
deriving DecidableEq

/-- `result.get("data", {}).get("answer", "")` from the Python source. -/
def getAnswer (r : QueryResponse) : String :=
  match r.data with
  | some d => d.answer.getD ""
  | none => ""

/-- The external collaborator: the outcome of the session-creation round
trip and, for each n, the outcome of the n-th query round trip issued in
this execution (0-indexed).  `Except.error msg` models the httpx call
raising an exception with message `msg` (network failure or
`raise_for_status`). -/
structure Collaborator where
  createSessionResult : Except String String
  queryResult : Nat → Except String QueryResponse

/-- `OnDemandWorkflowManager.ENDPOINTS`. -/
def ENDPOINTS : List (String × String) :=
  [("gpt4o", "predefined-openai-gpt4o"),
   ("claude", "predefined-anthropic-claude-sonnet"),
   ("grok", "predefined-xai-grok4.1-fast"),
   ("gemini", "predefined-google-gemini-2.0-flash")]

/-- `self.ENDPOINTS.get(endpoint, self.ENDPOINTS["gpt4o"])` from
`_submit_query`. -/
def resolveEndpoint (endpoint : String) : String :=
  (ENDPOINTS.lookup endpoint).getD "predefined-openai-gpt4o"

/-- The query call issued by `_submit_query session_id query endpoint`. -/
def mkQueryCall (session_id query endpoint : String) : RemoteCall :=
  RemoteCall.query session_id (resolveEndpoint endpoint) query

/-- Declared shape of one field of a workflow `output_format` entry: the
Python values are either a plain string (e.g. `"string"`) or a singleton
list (e.g. `["array"]`). -/
inductive OutShape where
  | plain (v : String)
  | listOf (v : List String)
deriving DecidableEq

/-- One workflow definition of `OnDemandWorkflowManager.WORKFLOWS`.  Each
step is kept as the literal key-value dictionary it is in the source (the
steps only carry `agent` and `task` keys there). -/
structure WorkflowDef where
  id : String
  name : String
  tagline : String
  description : String
  icon : String
  gradient : String
  steps : List (List (String × String))
  output_format : List (String × OutShape)
deriving DecidableEq

/-- `WORKFLOWS["dna_profiler"]`. -/
def dnaProfilerDef : WorkflowDef :=
  { id := "dna_profiler"
  , name := "🧬 Smart Contract DNA Profiler"
  , tagline := "Genetic fingerprinting for blockchain code"
  , description := "Creates a unique genetic fingerprint of any smart contract by analyzing code patterns, vulnerability markers, gas efficiency genes, and behavioral DNA. Like 23andMe for smart contracts!"
  , icon := "🧬"
  , gradient := "linear-gradient(135deg, #00d4aa 0%, #00b894 50%, #00cec9 100%)"
  , steps :=
      [ [("agent", "Code Analyzer"), ("task", "Extract structural DNA")]
      , [("agent", "Vulnerability Scanner"), ("task", "Identify risk markers")]
      , [("agent", "Pattern Matcher"), ("task", "Match against known strains")]
      , [("agent", "DNA Synthesizer"), ("task", "Generate unique fingerprint")] ]
  , output_format :=
      [ ("dna_sequence", OutShape.plain "string")
      , ("risk_markers", OutShape.listOf ["array"])
      , ("similarity_matches", OutShape.listOf ["array"])
      , ("mutation_probability", OutShape.plain "number")
      , ("evolutionary_tree", OutShape.plain "object") ] }

/-- `WORKFLOWS["exploit_oracle"]`. -/
def exploitOracleDef : WorkflowDef :=
  { id := "exploit_oracle"
  , name := "🔮 Predictive Exploit Oracle"
  , tagline := "See the future of smart contract attacks"
  , description := "AI-powered oracle that predicts potential future exploits by analyzing historical attack patterns, current vulnerabilities, and emerging threat vectors. Prevents attacks before they happen!"
  , icon := "🔮"
  , gradient := "linear-gradient(135deg, #667eea 0%, #764ba2 50%, #f093fb 100%)"
  , steps :=
      [ [("agent", "Historical Analyst"), ("task", "Analyze past exploits")]
      , [("agent", "Vulnerability Mapper"), ("task", "Map current weaknesses")]
      , [("agent", "Attack Simulator"), ("task", "Simulate attack vectors")]
      , [("agent", "Future Predictor"), ("task", "Generate exploit predictions")] ]
  , output_format :=
      [ ("predicted_exploits", OutShape.listOf ["array"])
      , ("attack_probability", OutShape.plain "number")
      , ("time_to_exploit", OutShape.plain "string")
      , ("prevention_steps", OutShape.listOf ["array"])
      , ("similar_past_attacks", OutShape.listOf ["array"]) ] }

/-- `WORKFLOWS["threat_mesh"]`. -/
def threatMeshDef : WorkflowDef :=
  { id := "threat_mesh"
  , name := "🌐 Cross-Chain Threat Mesh"
  , tagline := "Multi-dimensional blockchain security"
  , description := "Analyzes security across multiple blockchain ecosystems simultaneously, identifying attack patterns that spread across chains, bridge vulnerabilities, and cross-chain exploit vectors."
  , icon := "🌐"
  , gradient := "linear-gradient(135deg, #f093fb 0%, #f5576c 50%, #ff6b6b 100%)"
  , steps :=
      [ [("agent", "Chain Analyzer"), ("task", "Scan multiple chains")]
      , [("agent", "Bridge Inspector"), ("task", "Analyze cross-chain bridges")]
      , [("agent", "Pattern Correlator"), ("task", "Correlate attack patterns")]
      , [("agent", "Mesh Generator"), ("task", "Create threat mesh map")] ]
  , output_format :=
      [ ("threat_map", OutShape.plain "object")
      , ("chain_risk_scores", OutShape.plain "object")
      , ("bridge_vulnerabilities", OutShape.listOf ["array"])
      , ("correlated_attacks", OutShape.listOf ["array"])
      , ("mesh_visualization", OutShape.plain "object") ] }

/-- `OnDemandWorkflowManager.WORKFLOWS` as an ordered association list. -/
def WORKFLOWS : List (String × WorkflowDef) :=
  [ ("dna_profiler", dnaProfilerDef)
  , ("exploit_oracle", exploitOracleDef)
  , ("threat_mesh", threatMeshDef) ]

/-- `OnDemandWorkflowManager.get_workflow`: `self.WORKFLOWS.get(workflow_id)`. -/
def getWorkflow (workflow_id : String) : Option WorkflowDef :=
  WORKFLOWS.lookup workflow_id

/-- ASCII whitespace as stripped by Python `str.strip()`. -/
def isSpaceChar (c : Char) : Bool :=
  c = ' ' || c = '\t' || c = '\n' || c = '\r' || c = '\x0b' || c = '\x0c'

/-- Python `s.strip()`: drop leading and trailing whitespace. -/
def pyStrip (s : String) : String :=
  String.mk (((s.toList.dropWhile isSpaceChar).reverse.dropWhile isSpaceChar).reverse)

/-- Whether the character list `p` is a prefix of `l`. -/
def isPrefixL : List Char → List Char → Bool
  | [], _ => true
  | _ :: _, [] => false
  | p :: ps, c :: cs => (p = c) && isPrefixL ps cs

/-- Whether the character list `p` occurs contiguously inside `l`. -/
def containsL : List Char → List Char → Bool
  | [], p => isPrefixL p []
  | c :: t, p => isPrefixL p (c :: t) || containsL t p

/-- Substring test on strings (used to state prompt-chaining facts). -/
def strContains (s pat : String) : Bool :=
  containsL s.toList pat.toList

/-- The step-1 f-string of `execute_dna_profiler` (Code Analyzer prompt). -/
def dnaStep1Prompt (language contract_code : String) : String :=
  "You are a Smart Contract DNA Analyzer. Extract the structural DNA of this " ++ language ++ " smart contract.\n\nAnalyze and identify:\n1. **Function Genes**: List all functions with their visibility and modifiers\n2. **State Variables DNA**: All storage variables and their types\n3. **Inheritance Chain**: Contract inheritance patterns\n4. **Interaction Patterns**: External calls, events, modifiers\n5. **Access Control Markers**: Permission patterns\n\nContract Code:\n\x60\x60\x60" ++ language ++ "\n" ++ contract_code ++ "\n\x60\x60\x60\n\nRespond in JSON format:\n\x7b\n    \"function_genes\": [...],\n    \"state_dna\": [...],\n    \"inheritance_chain\": [...],\n    \"interaction_patterns\": [...],\n    \"access_markers\": [...]\n\x7d"

/-- The step-2 f-string of `execute_dna_profiler` (Vulnerability Gene
Scanner prompt); `a1` is the extracted answer of step 1. -/
def dnaStep2Prompt (a1 : String) : String :=
  "You are a Vulnerability Gene Scanner. Based on the DNA extracted, identify RISK MARKERS (vulnerability genes) in this contract.\n\nPrevious DNA Analysis: " ++ a1 ++ "\n\nScan for these vulnerability genes:\n1. **Reentrancy Gene (RG)**: Functions susceptible to reentrancy\n2. **Overflow Gene (OG)**: Arithmetic without SafeMath\n3. **Access Bypass Gene (ABG)**: Weak access controls\n4. **Oracle Dependency Gene (ODG)**: External oracle risks\n5. **Timestamp Gene (TG)**: Block timestamp dependencies\n6. **Front-run Gene (FRG)**: MEV vulnerable patterns\n\nRate each gene: PRESENT (critical), LATENT (warning), ABSENT (safe)\n\nRespond in JSON format:\n\x7b\n    \"risk_markers\": [\n        \x7b\"gene\": \"name\", \"status\": \"PRESENT|LATENT|ABSENT\", \"location\": \"...\", \"severity\": 0-100\x7d\n    ],\n    \"overall_risk_dna\": 0-100\n\x7d"

/-- The step-3 f-string of `execute_dna_profiler` (Pattern Matcher
prompt); `a1` and `a2` are the extracted answers of steps 1 and 2. -/
def dnaStep3Prompt (a1 a2 : String) : String :=
  "You are a Contract Pattern Matcher. Match this contract\x27s DNA against known contract patterns/strains.\n\nContract DNA Profile:\n" ++ a1 ++ "\n\nRisk Markers:\n" ++ a2 ++ "\n\nIdentify similarities to:\n1. **Known Safe Strains**: OpenZeppelin patterns, audited templates\n2. **Known Exploit Strains**: Patterns from past hacks (DAO, Parity, etc.)\n3. **DeFi Protocol Strains**: Uniswap, Compound, Aave patterns\n4. **NFT Strains**: ERC721, ERC1155 patterns\n\nRespond in JSON format:\n\x7b\n    \"strain_matches\": [\n        \x7b\"strain\": \"name\", \"similarity\": 0-100, \"type\": \"safe|risky|neutral\", \"description\": \"...\"\x7d\n    ],\n    \"closest_ancestor\": \"...\",\n    \"mutation_from_standard\": 0-100\n\x7d"

/-- The step-4 f-string of `execute_dna_profiler` (DNA Fingerprint
Synthesizer prompt); `a1`, `a2`, `a3` are the prior answers. -/
def dnaStep4Prompt (a1 a2 a3 : String) : String :=
  "You are a DNA Fingerprint Synthesizer. Generate a UNIQUE DNA FINGERPRINT for this smart contract.\n\nStructural DNA: " ++ a1 ++ "\nRisk Markers: " ++ a2 ++ "\nStrain Matches: " ++ a3 ++ "\n\nCreate a unique DNA fingerprint that includes:\n1. **DNA Sequence**: A unique hex-like sequence representing the contract (32 chars)\n2. **Gene Map**: Visual representation of the contract\x27s genetic makeup\n3. **Risk Chromosome**: Summary of all risk genes\n4. **Evolution Path**: Suggested improvements/mutations\n5. **Compatibility Score**: How well it works with other contracts\n\nRespond in JSON format:\n\x7b\n    \"dna_sequence\": \"0xABCD1234...\",\n    \"gene_map\": \x7b\n        \"security\": 0-100,\n        \"efficiency\": 0-100,\n        \"complexity\": 0-100,\n        \"standards_compliance\": 0-100,\n        \"innovation\": 0-100\n    \x7d,\n    \"risk_chromosome\": \x7b\n        \"critical_genes\": [...],\n        \"latent_genes\": [...],\n        \"healthy_genes\": [...]\n    \x7d,\n    \"evolution_recommendations\": [...],\n    \"compatibility_score\": 0-100,\n    \"overall_health\": \"HEALTHY|AT_RISK|CRITICAL\"\n\x7d"

/-- The dictionary returned by a successful `execute_*` coroutine
(`chains_analyzed` is `some _` only for the threat-mesh workflow, whose
result dict carries that extra key). -/
structure WorkflowResult where
  workflow : String
  workflow_id : String
  execution_time : String
  steps_completed : Nat
  results : List (String × String)
  session_id : String
  chains_analyzed : Option (List String)
deriving DecidableEq

/-- `execute_dna_profiler`: straight-line four-step execution.  `nowTs`
models `datetime.now().timestamp()` inside `_create_session` and `nowIso`
models `datetime.now().isoformat()` at result assembly.  Returns the
outcome together with the ordered list of remote calls issued. -/
def executeDnaProfiler (c : Collaborator) (contract_code language nowTs nowIso : String) :
    Except String WorkflowResult × List RemoteCall :=
  let sessionCall := RemoteCall.createSession ("workflow-" ++ nowTs)
  match c.createSessionResult with
  | .error e => (.error e, [sessionCall])
  | .ok session_id =>
    let p1 := dnaStep1Prompt language contract_code
    let q1 := mkQueryCall session_id p1 "gpt4o"
    match c.queryResult 0 with
    | .error e => (.error e, [sessionCall, q1])
    | .ok r1 =>
      let p2 := dnaStep2Prompt (getAnswer r1)
      let q2 := mkQueryCall session_id p2 "claude"
      match c.queryResult 1 with
      | .error e => (.error e, [sessionCall, q1, q2])
      | .ok r2 =>
        let p3 := dnaStep3Prompt (getAnswer r1) (getAnswer r2)
        let q3 := mkQueryCall session_id p3 "gemini"
        match c.queryResult 2 with
        | .error e => (.error e, [sessionCall, q1, q2, q3])
        | .ok r3 =>
          let p4 := dnaStep4Prompt (getAnswer r1) (getAnswer r2) (getAnswer r3)
          let q4 := mkQueryCall session_id p4 "gpt4o"
          match c.queryResult 3 with
          | .error e => (.error e, [sessionCall, q1, q2, q3, q4])
          | .ok r4 =>
            (.ok { workflow := dnaProfilerDef.name
                 , workflow_id := "dna_profiler"
                 , execution_time := nowIso
                 , steps_completed := 4
                 , results :=
                     [ ("structural_dna", getAnswer r1)
                     , ("risk_markers", getAnswer r2)
                     , ("strain_matches", getAnswer r3)
                     , ("dna_fingerprint", getAnswer r4) ]
                 , session_id := session_id
                 , chains_analyzed := none },
             [sessionCall, q1, q2, q3, q4])

/-- The step-1 f-string of `execute_exploit_oracle` (Attack Historian). -/
def oracleStep1Prompt (language contract_code : String) : String :=
  "You are a Blockchain Attack Historian. Analyze this " ++ language ++ " smart contract and identify patterns similar to HISTORICAL EXPLOITS.\n\nContract Code:\n\x60\x60\x60" ++ language ++ "\n" ++ contract_code ++ "\n\x60\x60\x60\n\nCompare against major historical exploits:\n1. **The DAO Hack (2016)**: Reentrancy patterns\n2. **Parity Wallet (2017)**: Library delegation issues\n3. **bZx Flash Loan (2020)**: Flash loan attack vectors\n4. **Cream Finance (2021)**: Oracle manipulation\n5. **Wormhole Bridge (2022)**: Cross-chain vulnerabilities\n6. **Ronin Bridge (2022)**: Validator compromise patterns\n7. **FTX Collapse (2022)**: Centralization risks\n8. **Euler Finance (2023)**: Donation attack patterns\n\nRespond in JSON format:\n\x7b\n    \"historical_similarities\": [\n        \x7b\"exploit\": \"name\", \"similarity\": 0-100, \"matching_patterns\": [...], \"year\": \"YYYY\"\x7d\n    ],\n    \"high_risk_patterns\": [...],\n    \"attack_surface_area\": 0-100\n\x7d"

/-- The step-2 f-string of `execute_exploit_oracle` (Vulnerability
Cartographer); `a1` is the step-1 answer. -/
def oracleStep2Prompt (a1 language contract_code : String) : String :=
  "You are a Vulnerability Cartographer. Create a detailed MAP of all current vulnerabilities in this contract.\n\nHistorical Analysis: " ++ a1 ++ "\n\nContract Code:\n\x60\x60\x60" ++ language ++ "\n" ++ contract_code ++ "\n\x60\x60\x60\n\nMap vulnerabilities by category:\n1. **Access Control Vulnerabilities**: Missing checks, privilege escalation\n2. **Arithmetic Vulnerabilities**: Overflow, underflow, precision loss\n3. **Logic Vulnerabilities**: Business logic flaws, edge cases\n4. **External Dependencies**: Oracle risks, external calls\n5. **State Management**: Storage collisions, uninitialized storage\n6. **Economic Vulnerabilities**: Flash loans, MEV, arbitrage\n\nRespond in JSON format:\n\x7b\n    \"vulnerability_map\": [\n        \x7b\n            \"id\": \"V001\",\n            \"category\": \"...\",\n            \"location\": \"function/line\",\n            \"severity\": \"CRITICAL|HIGH|MEDIUM|LOW\",\n            \"exploitability\": 0-100,\n            \"description\": \"...\"\n        \x7d\n    ],\n    \"total_vulnerabilities\": 0,\n    \"exploitable_now\": 0,\n    \"requires_conditions\": 0\n\x7d"

/-- The step-3 f-string of `execute_exploit_oracle` (Attack Simulator);
interpolates the step-2 answer `a2` first, then the step-1 answer `a1`. -/
def oracleStep3Prompt (a2 a1 : String) : String :=
  "You are an Attack Simulator. Simulate potential attack scenarios against this contract.\n\nVulnerability Map: " ++ a2 ++ "\nHistorical Patterns: " ++ a1 ++ "\n\nFor each viable attack vector, simulate:\n1. **Attack Preconditions**: What needs to be true for attack\n2. **Attack Steps**: Step-by-step attack execution\n3. **Required Resources**: Flash loans, gas, tokens needed\n4. **Potential Profit**: Estimated extractable value\n5. **Detection Difficulty**: How hard to detect in real-time\n\nRespond in JSON format:\n\x7b\n    \"simulated_attacks\": [\n        \x7b\n            \"attack_name\": \"...\",\n            \"attack_type\": \"...\",\n            \"preconditions\": [...],\n            \"steps\": [...],\n            \"required_capital\": \"...\",\n            \"potential_profit\": \"...\",\n            \"success_probability\": 0-100,\n            \"detection_difficulty\": \"EASY|MEDIUM|HARD|STEALTH\"\n        \x7d\n    ],\n    \"most_likely_attack\": \"...\",\n    \"total_risk_value\": \"...\"\n\x7d"

/-- The step-4 f-string of `execute_exploit_oracle` (Future Predictor). -/
def oracleStep4Prompt (a1 a2 a3 : String) : String :=
  "You are the Predictive Exploit Oracle. Based on all analysis, PREDICT FUTURE EXPLOITS for this contract.\n\nHistorical Analysis: " ++ a1 ++ "\nVulnerability Map: " ++ a2 ++ "\nAttack Simulations: " ++ a3 ++ "\n\nGenerate predictions for the next 30, 60, 90 days:\n\n1. **Immediate Threats (0-30 days)**: High probability exploits\n2. **Emerging Threats (30-60 days)**: Developing attack vectors\n3. **Future Threats (60-90 days)**: Potential new techniques\n\nInclude:\n- Probability of each exploit occurring\n- Estimated time to exploit\n- Prevention recommendations\n- Monitoring suggestions\n\nRespond in JSON format:\n\x7b\n    \"predictions\": \x7b\n        \"immediate\": [\n            \x7b\n                \"exploit\": \"...\",\n                \"probability\": 0-100,\n                \"estimated_date\": \"...\",\n                \"impact\": \"CATASTROPHIC|SEVERE|MODERATE|LOW\",\n                \"prevention\": \"...\"\n            \x7d\n        ],\n        \"emerging\": [...],\n        \"future\": [...]\n    \x7d,\n    \"overall_forecast\": \x7b\n        \"exploit_probability_30d\": 0-100,\n        \"exploit_probability_60d\": 0-100,\n        \"exploit_probability_90d\": 0-100,\n        \"recommended_actions\": [...],\n        \"monitoring_priority\": \"CRITICAL|HIGH|MEDIUM|LOW\"\n    \x7d,\n    \"oracle_confidence\": 0-100\n\x7d"

/-- `execute_exploit_oracle`: straight-line four-step execution. -/
def executeExploitOracle (c : Collaborator) (contract_code language nowTs nowIso : String) :
    Except String WorkflowResult × List RemoteCall :=
  let sessionCall := RemoteCall.createSession ("workflow-" ++ nowTs)
  match c.createSessionResult with
  | .error e => (.error e, [sessionCall])
  | .ok session_id =>
    let p1 := oracleStep1Prompt language contract_code
    let q1 := mkQueryCall session_id p1 "claude"
    match c.queryResult 0 with
    | .error e => (.error e, [sessionCall, q1])
    | .ok r1 =>
      let p2 := oracleStep2Prompt (getAnswer r1) language contract_code
      let q2 := mkQueryCall session_id p2 "gpt4o"
      match c.queryResult 1 with
      | .error e => (.error e, [sessionCall, q1, q2])
      | .ok r2 =>
        let p3 := oracleStep3Prompt (getAnswer r2) (getAnswer r1)
        let q3 := mkQueryCall session_id p3 "grok"
        match c.queryResult 2 with
        | .error e => (.error e, [sessionCall, q1, q2, q3])
        | .ok r3 =>
          let p4 := oracleStep4Prompt (getAnswer r1) (getAnswer r2) (getAnswer r3)
          let q4 := mkQueryCall session_id p4 "gpt4o"
          match c.queryResult 3 with
          | .error e => (.error e, [sessionCall, q1, q2, q3, q4])
          | .ok r4 =>
            (.ok { workflow := exploitOracleDef.name
                 , workflow_id := "exploit_oracle"
                 , execution_time := nowIso
                 , steps_completed := 4
                 , results :=
                     [ ("historical_analysis", getAnswer r1)
                     , ("vulnerability_map", getAnswer r2)
                     , ("attack_simulations", getAnswer r3)
                     , ("exploit_predictions", getAnswer r4) ]
                 , session_id := session_id
                 , chains_analyzed := none },
             [sessionCall, q1, q2, q3, q4])

/-- `chains = chains or ["aptos", ...]` at the top of
`execute_threat_mesh`: a missing (`None`) or empty chain list falls back
to the default chain list. -/
def effectiveChains : Option (List String) → List String
  | none => ["aptos", "ethereum", "solana", "sui", "arbitrum"]
  | some [] => ["aptos", "ethereum", "solana", "sui", "arbitrum"]
  | some (c :: cs) => c :: cs

/-- The step-1 f-string of `execute_threat_mesh` (Multi-Chain Analyst);
interpolates the comma-joined chain list. -/
def meshStep1Prompt (language contract_code : String) (chains : List String) : String :=
  "You are a Multi-Chain Security Analyst. Analyze this contract in the context of MULTIPLE BLOCKCHAIN ECOSYSTEMS.\n\nContract Code (" ++ language ++ "):\n\x60\x60\x60" ++ language ++ "\n" ++ contract_code ++ "\n\x60\x60\x60\n\nAnalyze for compatibility and risks on these chains: " ++ String.intercalate ", " chains ++ "\n\nFor each chain context, evaluate:\n1. **Native Compatibility**: How well it fits the chain\x27s paradigm\n2. **Chain-Specific Risks**: Unique vulnerabilities per chain\n3. **Gas/Resource Costs**: Efficiency on each chain\n4. **Security Model Fit**: Match with chain\x27s security assumptions\n\nRespond in JSON format:\n\x7b\n    \"chain_analysis\": \x7b\n        \"aptos\": \x7b\"compatibility\": 0-100, \"risks\": [...], \"efficiency\": 0-100\x7d,\n        \"ethereum\": \x7b\"compatibility\": 0-100, \"risks\": [...], \"efficiency\": 0-100\x7d,\n        \"solana\": \x7b\"compatibility\": 0-100, \"risks\": [...], \"efficiency\": 0-100\x7d,\n        \"sui\": \x7b\"compatibility\": 0-100, \"risks\": [...], \"efficiency\": 0-100\x7d,\n        \"arbitrum\": \x7b\"compatibility\": 0-100, \"risks\": [...], \"efficiency\": 0-100\x7d\n    \x7d,\n    \"best_fit_chain\": \"...\",\n    \"worst_fit_chain\": \"...\",\n    \"cross_chain_deployment_risk\": 0-100\n\x7d"

/-- The step-2 f-string of `execute_threat_mesh` (Bridge Security
Expert); `a1` is the step-1 answer. -/
def meshStep2Prompt (a1 language contract_code : String) : String :=
  "You are a Cross-Chain Bridge Security Expert. Analyze potential BRIDGE VULNERABILITIES if this contract were to interact with cross-chain bridges.\n\nMulti-Chain Analysis: " ++ a1 ++ "\n\nContract Code:\n\x60\x60\x60" ++ language ++ "\n" ++ contract_code ++ "\n\x60\x60\x60\n\nAnalyze bridge risks for:\n1. **Message Passing Vulnerabilities**: How messages could be spoofed\n2. **Validator Risks**: Centralization points in bridge validation\n3. **Replay Attacks**: Cross-chain replay possibilities\n4. **Liquidity Risks**: Bridge liquidity manipulation\n5. **Oracle Bridge Risks**: Price oracle manipulation across chains\n\nMajor bridges to consider:\n- LayerZero, Wormhole, Axelar, Multichain, Stargate\n\nRespond in JSON format:\n\x7b\n    \"bridge_vulnerabilities\": [\n        \x7b\n            \"bridge\": \"...\",\n            \"vulnerability_type\": \"...\",\n            \"risk_level\": \"CRITICAL|HIGH|MEDIUM|LOW\",\n            \"attack_scenario\": \"...\",\n            \"mitigation\": \"...\"\n        \x7d\n    ],\n    \"safest_bridge\": \"...\",\n    \"bridge_recommendations\": [...],\n    \"cross_chain_risk_score\": 0-100\n\x7d"

/-- The step-3 f-string of `execute_threat_mesh` (Pattern Analyst). -/
def meshStep3Prompt (a1 a2 : String) : String :=
  "You are a Cross-Chain Attack Pattern Analyst. Identify CORRELATED ATTACK PATTERNS that could spread across chains.\n\nChain Analysis: " ++ a1 ++ "\nBridge Analysis: " ++ a2 ++ "\n\nIdentify:\n1. **Coordinated Attacks**: Multi-chain synchronized exploits\n2. **Chain Hopping**: Using one chain to attack another\n3. **Arbitrage Exploits**: Cross-chain price manipulation\n4. **Governance Attacks**: Voting across chains\n5. **Liquidity Drain**: Multi-chain liquidity extraction\n\nReference real attacks:\n- Wormhole ($320M), Ronin ($600M), Nomad ($190M), Multichain ($126M)\n\nRespond in JSON format:\n\x7b\n    \"correlated_patterns\": [\n        \x7b\n            \"pattern_name\": \"...\",\n            \"chains_involved\": [...],\n            \"attack_flow\": [...],\n            \"historical_example\": \"...\",\n            \"current_applicability\": 0-100\n        \x7d\n    ],\n    \"highest_correlation\": \x7b\n        \"chains\": [...],\n        \"attack_type\": \"...\",\n        \"probability\": 0-100\n    \x7d,\n    \"multi_chain_risk_matrix\": \x7b\x7d\n\x7d"

/-- The step-4 f-string of `execute_threat_mesh` (Threat Mesh Architect). -/
def meshStep4Prompt (a1 a2 a3 : String) : String :=
  "You are a Threat Mesh Architect. Generate a comprehensive THREAT MESH MAP showing interconnected risks across all analyzed chains.\n\nChain Analysis: " ++ a1 ++ "\nBridge Vulnerabilities: " ++ a2 ++ "\nCorrelated Patterns: " ++ a3 ++ "\n\nCreate a threat mesh that shows:\n1. **Nodes**: Each chain as a node with risk score\n2. **Edges**: Connections between chains (bridges, protocols)\n3. **Threat Flows**: How attacks could propagate\n4. **Hot Spots**: Highest risk intersection points\n5. **Safe Zones**: Recommended isolation points\n\nRespond in JSON format:\n\x7b\n    \"threat_mesh\": \x7b\n        \"nodes\": [\n            \x7b\"chain\": \"...\", \"risk_score\": 0-100, \"threats\": [...], \"color\": \"hex\"\x7d\n        ],\n        \"edges\": [\n            \x7b\"from\": \"...\", \"to\": \"...\", \"bridge\": \"...\", \"risk\": 0-100, \"threat_flow\": \"...\"\x7d\n        ],\n        \"hotspots\": [\n            \x7b\"location\": \"...\", \"severity\": \"...\", \"connected_chains\": [...]\x7d\n        ]\n    \x7d,\n    \"mesh_summary\": \x7b\n        \"total_risk_score\": 0-100,\n        \"most_vulnerable_path\": [...],\n        \"recommended_isolation\": [...],\n        \"monitoring_priorities\": [...]\n    \x7d,\n    \"visualization_data\": \x7b\n        \"center_node\": \"...\",\n        \"layout\": \"force-directed\",\n        \"color_scheme\": \x7b\x7d\n    \x7d\n\x7d"

/-- `execute_threat_mesh`: straight-line four-step execution; the result
dict additionally carries the analyzed chain list. -/
def executeThreatMesh (c : Collaborator) (contract_code language : String)
    (chains : Option (List String)) (nowTs nowIso : String) :
    Except String WorkflowResult × List RemoteCall :=
  let cs := effectiveChains chains
  let sessionCall := RemoteCall.createSession ("workflow-" ++ nowTs)
  match c.createSessionResult with
  | .error e => (.error e, [sessionCall])
  | .ok session_id =>
    let p1 := meshStep1Prompt language contract_code cs
    let q1 := mkQueryCall session_id p1 "gpt4o"
    match c.queryResult 0 with
    | .error e => (.error e, [sessionCall, q1])
    | .ok r1 =>
      let p2 := meshStep2Prompt (getAnswer r1) language contract_code
      let q2 := mkQueryCall session_id p2 "claude"
      match c.queryResult 1 with
      | .error e => (.error e, [sessionCall, q1, q2])
      | .ok r2 =>
        let p3 := meshStep3Prompt (getAnswer r1) (getAnswer r2)
        let q3 := mkQueryCall session_id p3 "grok"
        match c.queryResult 2 with
        | .error e => (.error e, [sessionCall, q1, q2, q3])
        | .ok r3 =>
          let p4 := meshStep4Prompt (getAnswer r1) (getAnswer r2) (getAnswer r3)
          let q4 := mkQueryCall session_id p4 "gemini"
          match c.queryResult 3 with
          | .error e => (.error e, [sessionCall, q1, q2, q3, q4])
          | .ok r4 =>
            (.ok { workflow := threatMeshDef.name
                 , workflow_id := "threat_mesh"
                 , execution_time := nowIso
                 , steps_completed := 4
                 , results :=
                     [ ("chain_analysis", getAnswer r1)
                     , ("bridge_vulnerabilities", getAnswer r2)
                     , ("correlated_patterns", getAnswer r3)
                     , ("threat_mesh", getAnswer r4) ]
                 , session_id := session_id
                 , chains_analyzed := some cs },
             [sessionCall, q1, q2, q3, q4])

/-- `OnDemandWorkflowManager.execute_workflow`: dispatch by workflow id;
an unknown id raises `ValueError(f"Unknown workflow: {workflow_id}")`
before any remote call. -/
def executeWorkflowManager (c : Collaborator) (workflow_id contract_code language : String)
    (chains : Option (List String)) (nowTs nowIso : String) :
    Except String WorkflowResult × List RemoteCall :=
  if workflow_id = "dna_profiler" then
    executeDnaProfiler c contract_code language nowTs nowIso
  else if workflow_id = "exploit_oracle" then
    executeExploitOracle c contract_code language nowTs nowIso
  else if workflow_id = "threat_mesh" then
    executeThreatMesh c contract_code language chains nowTs nowIso
  else
    (.error ("Unknown workflow: " ++ workflow_id), [])

/-- The error outcomes of the `execute_workflow` route, by HTTP status of
the raised `HTTPException`: 404 (unknown workflow), 400 (contract-code
validation), 500 (any exception escaping the manager call). -/
inductive RouteError where
  | notFound (detail : String)
  | badRequest (detail : String)
  | internal (detail : String)
deriving DecidableEq

/-- The success payload of the `execute_workflow` route (besides the
constant `"success": True` field). -/
structure RouteResponse where
  workflow_id : String
  workflow_name : String
  execution_time : String
  steps_completed : Nat
  results : List (String × String)
deriving DecidableEq

/-- The `POST /api/workflows/{workflow_id}/execute` route handler
(`execute_workflow` in `app/api/routes/workflows.py`): workflow lookup,
contract-code validation, then dispatch to the manager, wrapping any
escaping exception into a 500 error. -/
def executeWorkflowRoute (c : Collaborator) (workflow_id contract_code language : String)
    (chains : Option (List String)) (nowTs nowIso : String) :
    Except RouteError RouteResponse × List RemoteCall :=
  match getWorkflow workflow_id with
  | none => (.error (.notFound ("Workflow \x27" ++ workflow_id ++ "\x27 not found")), [])
  | some w =>
    if contract_code = "" ∨ (pyStrip contract_code).length < 10 then
      (.error (.badRequest "Contract code is required and must be substantial"), [])
    else
      match executeWorkflowManager c workflow_id contract_code language chains nowTs nowIso with
      | (.error e, tr) => (.error (.internal ("Workflow execution failed: " ++ e)), tr)
      | (.ok r, tr) =>
        (.ok { workflow_id := workflow_id
             , workflow_name := w.name
             , execution_time := r.execution_time
             , steps_completed := r.steps_completed
             , results := r.results }, tr)

/-- Whether a remote call is a query submission. -/
def isQueryCall : RemoteCall → Bool
  | .query _ _ _ => true
  | .createSession _ => false

/-- Whether a remote call is a session creation. -/
def isSessionCall : RemoteCall → Bool
  | .createSession _ => true
  | .query _ _ _ => false

/-- Number of query calls in a trace. -/
def queryCount (tr : List RemoteCall) : Nat :=
  (tr.filter isQueryCall).length

/-- The query texts of a trace, in issue order. -/
def queryTexts (tr : List RemoteCall) : List String :=
  tr.filterMap fun call =>
    match call with
    | .query _ _ t => some t
    | .createSession _ => none

/-- The resolved endpoint ids of the queries of a trace, in issue order. -/
def queryEndpoints (tr : List RemoteCall) : List String :=
  tr.filterMap fun call =>
    match call with
    | .query _ ep _ => some ep
    | .createSession _ => none

/-- The result-field names under which the Python `execute_*` functions
store the four step answers, per workflow id (the keys hard-coded in each
`return` statement of `ondemand_workflows.py`). -/
def resultFieldNames (workflow_id : String) : List String :=
  if workflow_id = "dna_profiler" then
    ["structural_dna", "risk_markers", "strain_matches", "dna_fingerprint"]
  else if workflow_id = "exploit_oracle" then
    ["historical_analysis", "vulnerability_map", "attack_simulations", "exploit_predictions"]
  else if workflow_id = "threat_mesh" then
    ["chain_analysis", "bridge_vulnerabilities", "correlated_patterns", "threat_mesh"]
  else []

/-- A well-formed response envelope with the given answer text. -/
def mkResp (answer : String) : QueryResponse :=
  { data := some { answer := some answer } }

/-- Canned answer of the fully succeeding stub: step i answers R(i+1),
matching the concrete scenario of the specification. -/
def stubAnswer (i : Nat) : String :=
  "R" ++ toString (i + 1)

/-- Envelope returned by the fully succeeding stub for the i-th query. -/
def stubResp (i : Nat) : QueryResponse :=
  mkResp (stubAnswer i)

/-- Fully succeeding collaborator stub (session "sess-1", answers R1..). -/
def stubOk : Collaborator :=
  { createSessionResult := .ok "sess-1"
  , queryResult := fun i => .ok (stubResp i) }

/-- Collaborator whose session-creation call fails. -/
def stubFailSession : Collaborator :=
  { createSessionResult := .error "session down"
  , queryResult := fun i => .ok (stubResp i) }

/-- Collaborator whose first k query calls succeed with the given answers
and whose (k+1)-st query call raises "boom". -/
def stubFailAfter (k : Nat) (ans : Nat → String) : Collaborator :=
  { createSessionResult := .ok "sess-1"
  , queryResult := fun i => if i < k then .ok (mkResp (ans i)) else .error "boom" }

/-- One family of distinct canned answers. -/
def ansA (i : Nat) : String :=
  "ANSWER_A_" ++ toString i

/-- A second family of canned answers, disjoint from the first. -/
def ansB (i : Nat) : String :=
  "ANSWER_B_" ++ toString i

/-- A valid sample input (the concrete scenario of the specification). -/
def sampleContract : String :=
  "sample contract body exceeding ten characters"

theorem toList_append_eq (a b : String) : (a ++ b).toList = a.toList ++ b.toList := rfl

theorem isPrefixL_self_append (p r : List Char) : isPrefixL p (p ++ r) = true := by
  induction p with
  | nil => rfl
  | cons a as ih => simp [isPrefixL, ih]

theorem containsL_nil_pat (l : List Char) : containsL l [] = true := by
  cases l <;> simp [containsL, isPrefixL]

theorem containsL_append_right (l r p : List Char) (h : containsL r p = true) :
    containsL (l ++ r) p = true := by
  induction l with
  | nil => simpa using h
  | cons a as ih => simp [containsL, ih]

theorem containsL_self_append (p r : List Char) : containsL (p ++ r) p = true := by
  cases p with
  | nil => simpa using containsL_nil_pat r
  | cons a as =>
    simp [containsL, isPrefixL, isPrefixL_self_append]

/-- C10: an endpoint name that is not a key of `ENDPOINTS` is not an
error: `_submit_query` resolves it to the default gpt4o endpoint id and
issues the query addressed there. -/
theorem c10_default_endpoint (ep : String) (hep : ENDPOINTS.lookup ep = none)
    (session_id query : String) :
    resolveEndpoint ep = "predefined-openai-gpt4o"
    ∧ mkQueryCall session_id query ep
        = RemoteCall.query session_id "predefined-openai-gpt4o" query := by
  constructor
  · simp [resolveEndpoint, hep]
  · simp [mkQueryCall, resolveEndpoint, hep]

/-- Witness for C10 at the concrete unknown endpoint name "mistral". -/
theorem c10_default_endpoint_witness :
    ENDPOINTS.lookup "mistral" = none
    ∧ resolveEndpoint "mistral" = "predefined-openai-gpt4o"
    ∧ mkQueryCall "sess-1" "hello" "mistral"
        = RemoteCall.query "sess-1" "predefined-openai-gpt4o" "hello" := by
  refine ⟨by decide, ?_⟩
  exact c10_default_endpoint "mistral" (by decide) "sess-1" "hello"

/-- C4: for a workflow id absent from the catalog, the execute route
fails with the 404 not-found error and issues zero remote calls. -/
theorem c4_unknown_pipeline (c : Collaborator) (workflow_id : String)
    (hw : getWorkflow workflow_id = none)
    (contract_code language nowTs nowIso : String) (chains : Option (List String)) :
    executeWorkflowRoute c workflow_id contract_code language chains nowTs nowIso
      = (.error (.notFound ("Workflow \x27" ++ workflow_id ++ "\x27 not found")), []) := by
  unfold executeWorkflowRoute
  rw [hw]

/-- Witness for C4 at the concrete unknown id "mystery_pipeline". -/
theorem c4_unknown_pipeline_witness :
    getWorkflow "mystery_pipeline" = none
    ∧ executeWorkflowRoute stubOk "mystery_pipeline" sampleContract "move" none "0" "T"
        = (.error (.notFound ("Workflow \x27mystery_pipeline\x27 not found")), []) := by
  refine ⟨by decide, ?_⟩
  exact c4_unknown_pipeline stubOk "mystery_pipeline" (by decide) sampleContract "move" "0" "T" none

/-- C3: for a known workflow id, an empty contract code or one with fewer
than 10 characters after stripping whitespace makes the execute route
fail with the 400 validation error and issue zero remote calls. -/
theorem c3_validation (c : Collaborator) (workflow_id : String) (w : WorkflowDef)
    (hw : getWorkflow workflow_id = some w)
    (contract_code : String)
    (hv : contract_code = "" ∨ (pyStrip contract_code).length < 10)
    (language nowTs nowIso : String) (chains : Option (List String)) :
    executeWorkflowRoute c workflow_id contract_code language chains nowTs nowIso
      = (.error (.badRequest "Contract code is required and must be substantial"), []) := by
  unfold executeWorkflowRoute
  simp only [hw]
  rw [if_pos hv]

set_option maxRecDepth 4096 in
/-- Witness for C3: the nine-character input "short one" (9 chars after
strip) is rejected before any remote call. -/
theorem c3_validation_witness :
    getWorkflow "dna_profiler" = some dnaProfilerDef
    ∧ ((pyStrip "  short one  ").length < 10)
    ∧ executeWorkflowRoute stubOk "dna_profiler" "  short one  " "move" none "0" "T"
        = (.error (.badRequest "Contract code is required and must be substantial"), []) := by
  refine ⟨by decide, by decide, ?_⟩
  exact c3_validation stubOk "dna_profiler" dnaProfilerDef (by decide) "  short one  "
    (Or.inr (by decide)) "move" "0" "T" none
/-- C5: every execution of a known workflow issues the session-creation
call first and exactly once; and when session creation fails, the manager
fails with exactly the session error and zero query calls are issued. -/
theorem c5_single_session (c : Collaborator) (workflow_id : String)
    (hwid : workflow_id = "dna_profiler" ∨ workflow_id = "exploit_oracle"
        ∨ workflow_id = "threat_mesh")
    (contract_code language nowTs nowIso : String) (chains : Option (List String)) :
    (executeWorkflowManager c workflow_id contract_code language chains nowTs nowIso).2.head?
        = some (RemoteCall.createSession ("workflow-" ++ nowTs))
    ∧ ((executeWorkflowManager c workflow_id contract_code language chains nowTs nowIso).2.filter
        isSessionCall).length = 1
    ∧ ∀ e, c.createSessionResult = .error e →
        (executeWorkflowManager c workflow_id contract_code language chains nowTs nowIso).1
            = .error e
        ∧ queryCount
            (executeWorkflowManager c workflow_id contract_code language chains nowTs nowIso).2
          = 0 := by
  rcases hwid with h | h | h <;> subst h <;>
    rcases hc : c.createSessionResult with e | sid <;>
    rcases hq0 : c.queryResult 0 with e0 | r0 <;>
    rcases hq1 : c.queryResult 1 with e1 | r1 <;>
    rcases hq2 : c.queryResult 2 with e2 | r2 <;>
    rcases hq3 : c.queryResult 3 with e3 | r3 <;>
    simp [executeWorkflowManager, executeDnaProfiler, executeExploitOracle, executeThreatMesh,
      hc, hq0, hq1, hq2, hq3, isSessionCall, isQueryCall, queryCount, mkQueryCall]

/-- Witness for C5: with a session-failing collaborator on the
dna_profiler workflow, the trace is the lone session call, the manager
fails with the session error, and no query call is issued. -/
theorem c5_single_session_witness :
    (executeWorkflowManager stubFailSession "dna_profiler" sampleContract "move" none "0" "T").2.head?
        = some (RemoteCall.createSession ("workflow-" ++ "0"))
    ∧ ((executeWorkflowManager stubFailSession "dna_profiler" sampleContract "move" none "0" "T").2.filter
        isSessionCall).length = 1
    ∧ ∀ e, stubFailSession.createSessionResult = .error e →
        (executeWorkflowManager stubFailSession "dna_profiler" sampleContract "move" none "0" "T").1
            = .error e
        ∧ queryCount
            (executeWorkflowManager stubFailSession "dna_profiler" sampleContract "move" none "0" "T").2
          = 0 :=
  c5_single_session stubFailSession "dna_profiler" (Or.inl rfl) sampleContract "move" "0" "T" none

set_option maxRecDepth 8192 in
/-- Counterexample to C2 as stated: a fully successful dna_profiler
execution returns a results accumulator keyed by the four hard-coded
step-result names, which is NOT one entry per declared `output_format`
result-field (the declared schema has five different keys). -/
theorem c2_counterexample :
    ((executeWorkflowRoute stubOk "dna_profiler" sampleContract "move" none "0" "T").1.toOption.map
        (fun r => r.results.map Prod.fst))
      = some ["structural_dna", "risk_markers", "strain_matches", "dna_fingerprint"]
    ∧ dnaProfilerDef.output_format.map Prod.fst
      = ["dna_sequence", "risk_markers", "similarity_matches", "mutation_probability",
         "evolutionary_tree"]
    ∧ (["structural_dna", "risk_markers", "strain_matches", "dna_fingerprint"] : List String)
      ≠ ["dna_sequence", "risk_markers", "similarity_matches", "mutation_probability",
         "evolutionary_tree"] := by
  refine ⟨rfl, rfl, by decide⟩

/-- C2 as amended: for every known workflow id, a fully successful
execution with valid input returns steps_completed equal to the declared
step count and an accumulator with exactly one entry per STEP (not per
output_format field), keyed by the hard-coded result-field names of that
workflow, in step order. -/
theorem c2_amended (c : Collaborator) (sid : String) (resp : Nat → QueryResponse)
    (hs : c.createSessionResult = .ok sid)
    (hq : ∀ i, c.queryResult i = .ok (resp i))
    (workflow_id : String)
    (hwid : workflow_id = "dna_profiler" ∨ workflow_id = "exploit_oracle"
        ∨ workflow_id = "threat_mesh")
    (contract_code language nowTs nowIso : String) (chains : Option (List String))
    (hv : ¬ (contract_code = "" ∨ (pyStrip contract_code).length < 10)) :
    ∃ w r, getWorkflow workflow_id = some w
      ∧ (executeWorkflowRoute c workflow_id contract_code language chains nowTs nowIso).1 = .ok r
      ∧ r.steps_completed = w.steps.length
      ∧ r.results.map Prod.fst = resultFieldNames workflow_id
      ∧ r.results.length = w.steps.length := by
  rcases hwid with h | h | h <;> subst h
  · refine ⟨dnaProfilerDef,
      { workflow_id := "dna_profiler"
      , workflow_name := dnaProfilerDef.name
      , execution_time := nowIso
      , steps_completed := 4
      , results :=
          [ ("structural_dna", getAnswer (resp 0))
          , ("risk_markers", getAnswer (resp 1))
          , ("strain_matches", getAnswer (resp 2))
          , ("dna_fingerprint", getAnswer (resp 3)) ] },
      rfl, ?_, rfl, rfl, rfl⟩
    unfold executeWorkflowRoute
    simp only [show getWorkflow "dna_profiler" = some dnaProfilerDef from rfl]
    rw [if_neg hv]
    simp [executeWorkflowManager, executeDnaProfiler, hs, hq]
  · refine ⟨exploitOracleDef,
      { workflow_id := "exploit_oracle"
      , workflow_name := exploitOracleDef.name
      , execution_time := nowIso
      , steps_completed := 4
      , results :=
          [ ("historical_analysis", getAnswer (resp 0))
          , ("vulnerability_map", getAnswer (resp 1))
          , ("attack_simulations", getAnswer (resp 2))
          , ("exploit_predictions", getAnswer (resp 3)) ] },
      rfl, ?_, rfl, rfl, rfl⟩
    unfold executeWorkflowRoute
    simp only [show getWorkflow "exploit_oracle" = some exploitOracleDef from rfl]
    rw [if_neg hv]
    simp [executeWorkflowManager, executeExploitOracle, hs, hq]
  · refine ⟨threatMeshDef,
      { workflow_id := "threat_mesh"
      , workflow_name := threatMeshDef.name
      , execution_time := nowIso
      , steps_completed := 4
      , results :=
          [ ("chain_analysis", getAnswer (resp 0))
          , ("bridge_vulnerabilities", getAnswer (resp 1))
          , ("correlated_patterns", getAnswer (resp 2))
          , ("threat_mesh", getAnswer (resp 3)) ] },
      rfl, ?_, rfl, rfl, rfl⟩
    unfold executeWorkflowRoute
    simp only [show getWorkflow "threat_mesh" = some threatMeshDef from rfl]
    rw [if_neg hv]
    simp [executeWorkflowManager, executeThreatMesh, hs, hq]

set_option maxRecDepth 8192 in
/-- Witness for the amended C2 at the dna_profiler workflow with the
fully succeeding stub and the sample input. -/
theorem c2_amended_witness :
    stubOk.createSessionResult = .ok "sess-1"
    ∧ ¬ (sampleContract = "" ∨ (pyStrip sampleContract).length < 10)
    ∧ ∃ w r, getWorkflow "dna_profiler" = some w
      ∧ (executeWorkflowRoute stubOk "dna_profiler" sampleContract "move" none "0" "T").1 = .ok r
      ∧ r.steps_completed = w.steps.length
      ∧ r.results.map Prod.fst = resultFieldNames "dna_profiler"
      ∧ r.results.length = w.steps.length :=
  ⟨rfl, by decide,
   c2_amended stubOk "sess-1" stubResp rfl (fun _ => rfl) "dna_profiler" (Or.inl rfl)
     sampleContract "move" "0" "T" none (by decide)⟩

/-- Counterexample to C1 as stated: when the step-3 query fails, the
route surfaces only the bare 500 error string; two executions whose
completed steps produced entirely different partial answers yield the
IDENTICAL error value, so the error object carries neither the failed
step index/role, nor the completed-step count, nor the partial
accumulator. -/
theorem c1_counterexample :
    (executeWorkflowRoute (stubFailAfter 2 ansA) "dna_profiler" sampleContract "move" none "0" "T").1
      = Except.error (RouteError.internal "Workflow execution failed: boom")
    ∧ (executeWorkflowRoute (stubFailAfter 2 ansB) "dna_profiler" sampleContract "move" none "0" "T").1
      = (executeWorkflowRoute (stubFailAfter 2 ansA) "dna_profiler" sampleContract "move" none "0" "T").1
    ∧ ansA 0 ≠ ansB 0 := by
  refine ⟨rfl, rfl, by decide⟩

/-- C1 as amended: for every known pipeline, when the query call of some
step fails, the whole execution fails and the route returns the 500 error
whose detail is the fixed prefix plus the raw collaborator error message —
nothing else is attached (no step index, no role, no completed count, no
accumulator). -/
theorem c1_amended (c : Collaborator) (sid : String) (resp : Nat → QueryResponse)
    (k : Nat) (e : String) (hk : k < 4)
    (hs : c.createSessionResult = .ok sid)
    (hok : ∀ i, i < k → c.queryResult i = .ok (resp i))
    (he : c.queryResult k = .error e)
    (workflow_id : String)
    (hwid : workflow_id = "dna_profiler" ∨ workflow_id = "exploit_oracle"
        ∨ workflow_id = "threat_mesh")
    (contract_code language nowTs nowIso : String) (chains : Option (List String))
    (hv : ¬ (contract_code = "" ∨ (pyStrip contract_code).length < 10)) :
    (executeWorkflowRoute c workflow_id contract_code language chains nowTs nowIso).1
      = .error (.internal ("Workflow execution failed: " ++ e)) := by
  rcases hwid with h | h | h <;> subst h
  · unfold executeWorkflowRoute
    simp only [show getWorkflow "dna_profiler" = some dnaProfilerDef from rfl]
    rw [if_neg hv]
    interval_cases k
    · simp [executeWorkflowManager, executeDnaProfiler, hs, he]
    · simp [executeWorkflowManager, executeDnaProfiler, hs, he, hok 0 (by omega)]
    · simp [executeWorkflowManager, executeDnaProfiler, hs, he, hok 0 (by omega), hok 1 (by omega)]
    · simp [executeWorkflowManager, executeDnaProfiler, hs, he, hok 0 (by omega), hok 1 (by omega),
        hok 2 (by omega)]
  · unfold executeWorkflowRoute
    simp only [show getWorkflow "exploit_oracle" = some exploitOracleDef from rfl]
    rw [if_neg hv]
    interval_cases k
    · simp [executeWorkflowManager, executeExploitOracle, hs, he]
    · simp [executeWorkflowManager, executeExploitOracle, hs, he, hok 0 (by omega)]
    · simp [executeWorkflowManager, executeExploitOracle, hs, he, hok 0 (by omega),
        hok 1 (by omega)]
    · simp [executeWorkflowManager, executeExploitOracle, hs, he, hok 0 (by omega),
        hok 1 (by omega), hok 2 (by omega)]
  · unfold executeWorkflowRoute
    simp only [show getWorkflow "threat_mesh" = some threatMeshDef from rfl]
    rw [if_neg hv]
    interval_cases k
    · simp [executeWorkflowManager, executeThreatMesh, hs, he]
    · simp [executeWorkflowManager, executeThreatMesh, hs, he, hok 0 (by omega)]
    · simp [executeWorkflowManager, executeThreatMesh, hs, he, hok 0 (by omega), hok 1 (by omega)]
    · simp [executeWorkflowManager, executeThreatMesh, hs, he, hok 0 (by omega), hok 1 (by omega),
        hok 2 (by omega)]

set_option maxRecDepth 8192 in
/-- Witness for the amended C1: the stub failing at the second step of an
exploit_oracle execution yields exactly the wrapped 500 error. -/
theorem c1_amended_witness :
    (stubFailAfter 1 ansA).queryResult 1 = .error "boom"
    ∧ (executeWorkflowRoute (stubFailAfter 1 ansA) "exploit_oracle" sampleContract "move" none "0" "T").1
      = .error (.internal ("Workflow execution failed: " ++ "boom")) :=
  ⟨rfl,
   c1_amended (stubFailAfter 1 ansA) "sess-1" (fun i => mkResp (ansA i)) 1 "boom" (by decide)
     rfl (fun i hi => by interval_cases i; rfl) rfl
     "exploit_oracle" (Or.inr (Or.inl rfl))
     sampleContract "move" "0" "T" none (by decide)⟩

/-- Counterexample to C6 as stated: the execution is strictly sequential
and stops at the failed step (one query attempted when step 1 fails, two
when step 2 fails), but the completed-step count k-1 is NOT reported
anywhere — failing at step 1 and failing at step 2 produce the identical
error value. -/
theorem c6_counterexample :
    (executeWorkflowRoute (stubFailAfter 0 ansA) "dna_profiler" sampleContract "move" none "0" "T").1
      = (executeWorkflowRoute (stubFailAfter 1 ansA) "dna_profiler" sampleContract "move" none "0" "T").1
    ∧ (executeWorkflowRoute (stubFailAfter 0 ansA) "dna_profiler" sampleContract "move" none "0" "T").1
      = Except.error (RouteError.internal "Workflow execution failed: boom")
    ∧ queryCount
        (executeWorkflowRoute (stubFailAfter 0 ansA) "dna_profiler" sampleContract "move" none "0" "T").2
      = 1
    ∧ queryCount
        (executeWorkflowRoute (stubFailAfter 1 ansA) "dna_profiler" sampleContract "move" none "0" "T").2
      = 2 := by
  refine ⟨rfl, rfl, rfl, rfl⟩

/-- C6 as amended: steps run strictly in declared order; if the query of
0-indexed step k fails, exactly k+1 query calls appear in the trace (none
for any later step), the execution fails with the wrapped error, and the
number of step answers accumulated before the failure is k — but that
count is not part of the returned error. -/
theorem c6_amended (c : Collaborator) (sid : String) (resp : Nat → QueryResponse)
    (k : Nat) (e : String) (hk : k < 4)
    (hs : c.createSessionResult = .ok sid)
    (hok : ∀ i, i < k → c.queryResult i = .ok (resp i))
    (he : c.queryResult k = .error e)
    (contract_code language nowTs nowIso : String) (chains : Option (List String))
    (hv : ¬ (contract_code = "" ∨ (pyStrip contract_code).length < 10)) :
    queryCount
        (executeWorkflowRoute c "dna_profiler" contract_code language chains nowTs nowIso).2
      = k + 1
    ∧ (executeWorkflowRoute c "dna_profiler" contract_code language chains nowTs nowIso).1
      = .error (.internal ("Workflow execution failed: " ++ e)) := by
  unfold executeWorkflowRoute
  simp only [show getWorkflow "dna_profiler" = some dnaProfilerDef from rfl]
  rw [if_neg hv]
  interval_cases k
  · simp [executeWorkflowManager, executeDnaProfiler, hs, he, queryCount, isQueryCall, mkQueryCall]
  · simp [executeWorkflowManager, executeDnaProfiler, hs, he, hok 0 (by omega), queryCount,
      isQueryCall, mkQueryCall]
  · simp [executeWorkflowManager, executeDnaProfiler, hs, he, hok 0 (by omega), hok 1 (by omega),
      queryCount, isQueryCall, mkQueryCall]
  · simp [executeWorkflowManager, executeDnaProfiler, hs, he, hok 0 (by omega), hok 1 (by omega),
      hok 2 (by omega), queryCount, isQueryCall, mkQueryCall]

set_option maxRecDepth 8192 in
/-- Witness for the amended C6: failing at 0-indexed step 2 gives three
query calls in the trace and the wrapped error. -/
theorem c6_amended_witness :
    (stubFailAfter 2 ansA).queryResult 2 = .error "boom"
    ∧ queryCount
        (executeWorkflowRoute (stubFailAfter 2 ansA) "dna_profiler" sampleContract "move" none "0" "T").2
      = 3
    ∧ (executeWorkflowRoute (stubFailAfter 2 ansA) "dna_profiler" sampleContract "move" none "0" "T").1
      = .error (.internal ("Workflow execution failed: " ++ "boom")) := by
  refine ⟨rfl, ?_⟩
  have h := c6_amended (stubFailAfter 2 ansA) "sess-1" (fun i => mkResp (ansA i)) 2 "boom"
    (by decide) rfl (fun i hi => by interval_cases i <;> rfl) rfl
    sampleContract "move" "0" "T" none (by decide)
  exact ⟨h.1, h.2⟩

set_option maxRecDepth 16384 in
/-- C7: prompts chain prior outputs.  With the stub answering R1..R4, the
step-3 query text of the dna_profiler execution is the step-3 template
filled with the literal step-1 and step-2 answers: it contains "R1" and
"R2" verbatim and contains neither "R3" nor "R4"; and in general the
step-3 prompt interpolates both prior answers verbatim. -/
theorem c7_prompt_chaining :
    (queryTexts (executeDnaProfiler stubOk sampleContract "move" "0" "T").2)[2]?
      = some (dnaStep3Prompt "R1" "R2")
    ∧ strContains (dnaStep3Prompt "R1" "R2") "R1" = true
    ∧ strContains (dnaStep3Prompt "R1" "R2") "R2" = true
    ∧ strContains (dnaStep3Prompt "R1" "R2") "R3" = false
    ∧ strContains (dnaStep3Prompt "R1" "R2") "R4" = false
    ∧ ∀ a1 a2 : String,
        strContains (dnaStep3Prompt a1 a2) a1 = true
        ∧ strContains (dnaStep3Prompt a1 a2) a2 = true := by
  refine ⟨rfl, by decide, by decide, by decide, by decide, ?_⟩
  intro a1 a2
  constructor
  · unfold strContains dnaStep3Prompt
    simp only [toList_append_eq, List.append_assoc]
    apply containsL_append_right
    exact containsL_self_append _ _
  · unfold strContains dnaStep3Prompt
    simp only [toList_append_eq, List.append_assoc]
    apply containsL_append_right
    apply containsL_append_right
    apply containsL_append_right
    exact containsL_self_append _ _

/-- C8: prompt composition has no hidden time-based or random content:
for a fixed collaborator, input, and language, the query texts issued by
the dna_profiler execution are byte-identical across runs started at
different wall-clock instants (the clock readings `nowTs`/`nowIso` are
the only non-input data the execution consumes). -/
theorem c8_prompt_determinism (c : Collaborator)
    (contract_code language ts1 iso1 ts2 iso2 : String) :
    queryTexts (executeDnaProfiler c contract_code language ts1 iso1).2
      = queryTexts (executeDnaProfiler c contract_code language ts2 iso2).2 := by
  rcases hc : c.createSessionResult with e | sid <;>
    rcases hq0 : c.queryResult 0 with e0 | r0 <;>
    rcases hq1 : c.queryResult 1 with e1 | r1 <;>
    rcases hq2 : c.queryResult 2 with e2 | r2 <;>
    rcases hq3 : c.queryResult 3 with e3 | r3 <;>
    simp [executeDnaProfiler, hc, hq0, hq1, hq2, hq3, queryTexts, mkQueryCall]

/-- Counterexample to C9 as stated: no step definition in the catalog
names a model endpoint (each step dictionary has exactly the keys
`agent` and `task`), yet the queries of a dna_profiler run are addressed
to concrete endpoint ids — these are hard-coded in the execution
function, not drawn from the step definitions. -/
theorem c9_counterexample :
    dnaProfilerDef.steps.map (fun s => s.map Prod.fst)
      = [["agent", "task"], ["agent", "task"], ["agent", "task"], ["agent", "task"]]
    ∧ dnaProfilerDef.steps.map (fun s => s.lookup "endpoint") = [none, none, none, none]
    ∧ queryEndpoints (executeDnaProfiler stubOk sampleContract "move" "0" "T").2
      = ["predefined-openai-gpt4o", "predefined-anthropic-claude-sonnet",
         "predefined-google-gemini-2.0-flash", "predefined-openai-gpt4o"] := by
  refine ⟨rfl, rfl, rfl⟩

/-- C9 as amended: catalog step definitions carry only an agent role and
a task; the endpoint of each query is the one hard-coded per step in the
execution functions (dna_profiler: gpt4o, claude, gemini, gpt4o;
exploit_oracle: claude, gpt4o, grok, gpt4o; threat_mesh: gpt4o, claude,
grok, gemini), and every issued query is addressed there. -/
theorem c9_amended (c : Collaborator) (sid : String) (resp : Nat → QueryResponse)
    (hs : c.createSessionResult = .ok sid)
    (hq : ∀ i, c.queryResult i = .ok (resp i))
    (contract_code language nowTs nowIso : String) (chains : Option (List String)) :
    (∀ w ∈ WORKFLOWS, ∀ s ∈ w.2.steps, s.map Prod.fst = ["agent", "task"])
    ∧ queryEndpoints (executeDnaProfiler c contract_code language nowTs nowIso).2
      = ["predefined-openai-gpt4o", "predefined-anthropic-claude-sonnet",
         "predefined-google-gemini-2.0-flash", "predefined-openai-gpt4o"]
    ∧ queryEndpoints (executeExploitOracle c contract_code language nowTs nowIso).2
      = ["predefined-anthropic-claude-sonnet", "predefined-openai-gpt4o",
         "predefined-xai-grok4.1-fast", "predefined-openai-gpt4o"]
    ∧ queryEndpoints (executeThreatMesh c contract_code language chains nowTs nowIso).2
      = ["predefined-openai-gpt4o", "predefined-anthropic-claude-sonnet",
         "predefined-xai-grok4.1-fast", "predefined-google-gemini-2.0-flash"] := by
  refine ⟨by decide, ?_, ?_, ?_⟩ <;>
    simp [executeDnaProfiler, executeExploitOracle, executeThreatMesh, hs, hq,
      queryEndpoints, mkQueryCall,
      show resolveEndpoint "gpt4o" = "predefined-openai-gpt4o" from rfl,
      show resolveEndpoint "claude" = "predefined-anthropic-claude-sonnet" from rfl,
      show resolveEndpoint "grok" = "predefined-xai-grok4.1-fast" from rfl,
      show resolveEndpoint "gemini" = "predefined-google-gemini-2.0-flash" from rfl]

/-- Witness for the amended C9 with the fully succeeding stub. -/
theorem c9_amended_witness :
    (∀ w ∈ WORKFLOWS, ∀ s ∈ w.2.steps, s.map Prod.fst = ["agent", "task"])
    ∧ queryEndpoints (executeDnaProfiler stubOk sampleContract "move" "0" "T").2
      = ["predefined-openai-gpt4o", "predefined-anthropic-claude-sonnet",
         "predefined-google-gemini-2.0-flash", "predefined-openai-gpt4o"]
    ∧ queryEndpoints (executeExploitOracle stubOk sampleContract "move" "0" "T").2
      = ["predefined-anthropic-claude-sonnet", "predefined-openai-gpt4o",
         "predefined-xai-grok4.1-fast", "predefined-openai-gpt4o"]
    ∧ queryEndpoints (executeThreatMesh stubOk sampleContract "move" none "0" "T").2
      = ["predefined-openai-gpt4o", "predefined-anthropic-claude-sonnet",
         "predefined-xai-grok4.1-fast", "predefined-google-gemini-2.0-flash"] :=
  c9_amended stubOk "sess-1" stubResp rfl (fun _ => rfl) sampleContract "move" "0" "T" none
